import Mathlib

/-!
Verification of the py-xiaozhi voice-assistant client core against its
natural-language specification.

The definitions below are a shallow embedding of the Python sources:

* `src/src/audio_codecs/audio_codec.py` — `AudioCodec` (playback queue,
  `write_audio`, `play_audio`, `clear_audio_queue`);
* `src/src/application.py` — `Application` (scheduler, device-state machine,
  `abort_speaking`, TTS event handlers, `_on_incoming_audio`);
* `src/src/protocols/websocket_protocol.py` — `WebsocketProtocol`
  (`connect`, `_message_handler`).

Stateful Python methods become pure functions from a state record to a new
state record paired with a list of emitted external effects (display updates,
wake-word detector calls, protocol sends, scheduled tasks).  Work that the
Python code hands to a separate thread or coroutine is returned as a second,
deferred effect list, so "synchronous before the async work starts" is a
structural fact of the embedding.  Exceptions that the Python code lets
escape are modelled with `Except`; exceptions it catches are modelled by the
corresponding branch of the pure function.
-/

namespace XiaoZhi

/-- An encoded Opus frame travelling through the playback queue.  `id`
identifies the frame; `decodeOk` records whether `opus_decoder.decode` would
succeed on it (`False` models a frame whose decode raises `OpusError`). -/
structure OpusFrame where
  id : Nat
  decodeOk : Bool
  deriving DecidableEq, Repr

/-! ## AudioCodec (src/src/audio_codecs/audio_codec.py) -/

/-- `AudioCodec.__init__` line 25: `max_queue_size = int(10 * 1000 /
AudioConfig.FRAME_DURATION)`.  Python `int()` on a positive float truncates,
so this is the floor of `10000 / frameDuration`, which `Nat` division
computes directly. -/
def maxQueueSize (frameDuration : Nat) : Nat :=
  10 * 1000 / frameDuration

/-- The state of an `AudioCodec` that the verified claims depend on:
the bounded playback queue (`queue.Queue(maxsize=...)`, stored oldest first)
and the input-paused flag. -/
structure AudioCodecState where
  maxsize : Nat
  audio_decode_queue : List OpusFrame
  is_input_paused : Bool
  deriving DecidableEq, Repr

/-- `AudioCodec.write_audio` (lines 279-292): `put_nowait` the new frame; a
`queue.Full` exception (raised by CPython exactly when `0 < maxsize ≤ qsize`)
is handled by `get_nowait` (remove the oldest frame) followed by `put_nowait`
of the new frame.  The `queue.Empty` fallback in the source only fires under
a concurrent consumer and is the identity here. -/
def write_audio (c : AudioCodecState) (d : OpusFrame) : AudioCodecState :=
  if 0 < c.maxsize ∧ c.maxsize ≤ c.audio_decode_queue.length then
    { c with audio_decode_queue := c.audio_decode_queue.drop 1 ++ [d] }
  else
    { c with audio_decode_queue := c.audio_decode_queue ++ [d] }

/-- `AudioCodec.clear_audio_queue` (lines 316-326): `get_nowait` in a loop
until the queue is empty. -/
def clear_audio_queue (c : AudioCodecState) : AudioCodecState :=
  { c with audio_decode_queue := [] }

/-- The batch loop of `AudioCodec.play_audio` (lines 180-214).  Arguments:
whether the output stream is active, the queue contents, and the remaining
budget of `max_process_per_call - processed_count`.  Returns the remaining
queue, then the ids of frames written to the output stream, then the ids of
discarded frames (decode failure, or inactive output stream).  Every popped
frame increments the budget use whether or not its decode succeeded, exactly
as `processed_count += 1` runs on both paths in the source. -/
def play_audio_go (outputActive : Bool) :
    List OpusFrame → Nat → List OpusFrame × List Nat × List Nat
  | q, 0 => (q, [], [])
  | [], _ + 1 => ([], [], [])
  | f :: rest, n + 1 =>
      let r := play_audio_go outputActive rest n
      if f.decodeOk then
        if outputActive then (r.1, f.id :: r.2.1, r.2.2)
        else (r.1, r.2.1, f.id :: r.2.2)
      else (r.1, r.2.1, f.id :: r.2.2)

/-- `AudioCodec.play_audio` (lines 170-217): processes at most
`max_process_per_call = 5` frames per call.  All exceptions on the decode and
write paths are caught inside the loop body (the function is total), so a
corrupt frame is discarded and the loop continues with the next frame. -/
def play_audio (outputActive : Bool) (c : AudioCodecState) :
    AudioCodecState × List Nat × List Nat :=
  let r := play_audio_go outputActive c.audio_decode_queue 5
  ({ c with audio_decode_queue := r.1 }, r.2.1, r.2.2)

/-! ## Application data model (src/src/application.py) -/

/-- `DeviceState` from `src/constants/constants.py`.  That module is not
under `src/`; the four values are fixed by spec section 3 and by every use in
`application.py`. -/
inductive DeviceState
  | IDLE
  | CONNECTING
  | LISTENING
  | SPEAKING
  deriving DecidableEq, Repr

/-- `AbortReason` from `src/constants/constants.py` (module not under
`src/`); the two values are fixed by spec section 3 and by the uses in
`application.py`. -/
inductive AbortReason
  | NONE
  | WAKE_WORD_DETECTED
  deriving DecidableEq, Repr

/-- The wake-word detector as the controller observes it: the `paused` flag
and the `is_running()` answer. -/
structure WakeWordState where
  paused : Bool
  running : Bool
  deriving DecidableEq, Repr

/-- External side effects emitted by the controller.  Each constructor names
the collaborator call made by the Python code; `scheduleSetState` and the
other `schedule...` constructors are tasks pushed through
`Application.schedule` for the main loop, `sendAbort` is the awaited
`protocol.send_abort_speaking`. -/
inductive Effect
  | updateStatus (text : String)
  | setEmotion (emotion : String)
  | updateIotStates (delta : Bool)
  | resumeWakeWord
  | pauseWakeWord
  | resumeAudioInput
  | stateCallback (cb : Nat) (st : DeviceState)
  | sendAbort (reason : AbortReason)
  | scheduleSetState (st : DeviceState)
  | scheduleToggleChat
  | scheduleDrainTask
  | reinitInputStream
  deriving DecidableEq, Repr

/-- The fields of `Application` that the verified claims touch.
`on_state_changed_callbacks` keeps callback identities only (their own
behavior is external).  `output_ready_event` is
`events[AUDIO_OUTPUT_READY_EVENT]`. -/
structure AppState where
  device_state : DeviceState
  keep_listening : Bool
  aborted : Bool
  is_tts_playing : Bool
  audio_codec : Option AudioCodecState
  wake_word_detector : Option WakeWordState
  on_state_changed_callbacks : List Nat
  protocol_channel_opened : Bool
  output_ready_event : Bool
  deriving DecidableEq, Repr

/-- The fragment `if self.wake_word_detector and ...paused:
self.wake_word_detector.resume()` used by `set_device_state` (IDLE and
SPEAKING entry) and the reinit-failure paths: returns the updated detector
and the emitted call. -/
def resumeIfPaused (d : Option WakeWordState) :
    Option WakeWordState × List Effect :=
  match d with
  | some w =>
      if w.paused then (some { w with paused := false }, [Effect.resumeWakeWord])
      else (some w, [])
  | none => (none, [])

/-- The fragment `if self.wake_word_detector and ...is_running():
self.wake_word_detector.pause()` used by `set_device_state` (LISTENING
entry) and `abort_speaking`. -/
def pauseIfRunning (d : Option WakeWordState) :
    Option WakeWordState × List Effect :=
  match d with
  | some w =>
      if w.running then (some { w with paused := true }, [Effect.pauseWakeWord])
      else (some w, [])
  | none => (none, [])

/-- The fragment `if self.audio_codec and self.audio_codec.is_input_paused():
self.audio_codec.resume_input()` from `set_device_state`. -/
def resumeInputIfPaused (c : Option AudioCodecState) :
    Option AudioCodecState × List Effect :=
  match c with
  | some ac =>
      if ac.is_input_paused then
        (some { ac with is_input_paused := false }, [Effect.resumeAudioInput])
      else (some ac, [])
  | none => (none, [])

/-- The state-entry side effects of `Application.set_device_state`
(lines 637-678), for a state `st` different from the current one.  The order
of the effect list matches the order of the collaborator calls in the
source. -/
def stateEntryEffects (base : AppState) (st : DeviceState) :
    AppState × List Effect :=
  match st with
  | DeviceState.IDLE =>
      let rw := resumeIfPaused base.wake_word_detector
      let ri := resumeInputIfPaused base.audio_codec
      ({ base with wake_word_detector := rw.1, audio_codec := ri.1 },
       [Effect.updateStatus "Idle", Effect.setEmotion "neutral"] ++ rw.2 ++ ri.2)
  | DeviceState.CONNECTING =>
      (base, [Effect.updateStatus "Connecting..."])
  | DeviceState.LISTENING =>
      let pw := pauseIfRunning base.wake_word_detector
      let ri := resumeInputIfPaused base.audio_codec
      ({ base with wake_word_detector := pw.1, audio_codec := ri.1 },
       [Effect.updateStatus "Listening...", Effect.setEmotion "neutral",
        Effect.updateIotStates true] ++ pw.2 ++ ri.2)
  | DeviceState.SPEAKING =>
      let rw := resumeIfPaused base.wake_word_detector
      ({ base with wake_word_detector := rw.1 },
       [Effect.updateStatus "Speaking..."] ++ rw.2)

/-- `Application.set_device_state` (lines 630-685).  The guard
`if self.device_state == state: return` makes a same-state call a no-op.
Otherwise the state is assigned, state-entry side effects run, and every
registered state-change callback is invoked in registration order (each one
inside its own try/except, so all of them fire). -/
def set_device_state (s : AppState) (st : DeviceState) :
    AppState × List Effect :=
  if s.device_state = st then (s, [])
  else
    let r := stateEntryEffects { s with device_state := st } st
    (r.1, r.2 ++ r.1.on_state_changed_callbacks.map (fun cb => Effect.stateCallback cb st))

/-- A Python exception that the embedded code lets escape. -/
inductive PyError
  | attributeError
  deriving DecidableEq, Repr

/-- `Application.abort_speaking` (lines 957-1012).  Returns the state after
the synchronous part of the method, the effects emitted synchronously (the
wake-word pause), and the work of the `process_abort` thread as a deferred
effect list (`send_abort_speaking`, the scheduled IDLE transition, and the
conditional scheduled `toggle_chat_state`).  The guard `if self.aborted:
return` makes a repeated call a no-op.  The synchronous part sets
`aborted = True`, `is_tts_playing = False` and clears the playback queue
before the thread is started.  The deferred condition on `keep_listening`
and `is_audio_channel_opened()` is evaluated on the state snapshot, matching
the single-writer discipline of the main loop. -/
def abort_speaking (s : AppState) (reason : AbortReason) :
    AppState × List Effect × List Effect :=
  if s.aborted then (s, [], [])
  else
    let ww :=
      if reason = AbortReason.WAKE_WORD_DETECTED then
        pauseIfRunning s.wake_word_detector
      else (s.wake_word_detector, [])
    let s3 : AppState :=
      { s with aborted := true, is_tts_playing := false,
               audio_codec := Option.map clear_audio_queue s.audio_codec,
               wake_word_detector := ww.1 }
    let deferred :=
      [Effect.sendAbort reason, Effect.scheduleSetState DeviceState.IDLE] ++
      (if reason = AbortReason.WAKE_WORD_DETECTED ∧ s3.keep_listening ∧
          s3.protocol_channel_opened
       then [Effect.scheduleToggleChat] else [])
    (s3, ww.2, deferred)

/-- `Application._handle_tts_start` (lines 393-408): reset the abort flag,
mark TTS playing, clear the playback queue (`self.audio_codec` is
dereferenced with no `None` check, so a missing codec raises
`AttributeError`), and schedule the SPEAKING transition when coming from
IDLE or LISTENING. -/
def handle_tts_start (s : AppState) : Except PyError (AppState × List Effect) :=
  match s.audio_codec with
  | none => Except.error PyError.attributeError
  | some c =>
      let s1 : AppState :=
        { s with aborted := false, is_tts_playing := true,
                 audio_codec := some (clear_audio_queue c) }
      if s1.device_state = DeviceState.IDLE ∨
         s1.device_state = DeviceState.LISTENING then
        Except.ok (s1, [Effect.scheduleSetState DeviceState.SPEAKING])
      else
        Except.ok (s1, [])

/-- The observable outcome of the
`self.audio_codec._reinitialize_stream(is_input=True)` call inside
`_handle_tts_stop`: the call returns `True` or `False` (its own body
catches stream errors and returns `False` for the input direction), or it
raises, which is the only case `_handle_tts_stop`'s try/except handles. -/
inductive ReinitOutcome
  | ok (success : Bool)
  | raised
  deriving DecidableEq, Repr

/-- `Application._handle_tts_stop` (lines 410-471).  Only meaningful in
SPEAKING.  On Linux it first forces an input-stream reinitialization; only
if that call **raises** does it schedule the fall back to IDLE and resume
the wake-word detector (abandoning the drain).  A reinitialization that
merely returns `False`, or a missing codec (logged warning), still proceeds
to schedule the `delayed_state_change` drain task. -/
def handle_tts_stop (s : AppState) (isLinux : Bool) (reinit : ReinitOutcome) :
    AppState × List Effect :=
  if s.device_state = DeviceState.SPEAKING then
    if isLinux then
      match s.audio_codec with
      | some _ =>
          match reinit with
          | ReinitOutcome.raised =>
              let rw := resumeIfPaused s.wake_word_detector
              ({ s with wake_word_detector := rw.1 },
               [Effect.reinitInputStream,
                Effect.scheduleSetState DeviceState.IDLE] ++ rw.2)
          | ReinitOutcome.ok _ =>
              (s, [Effect.reinitInputStream, Effect.scheduleDrainTask])
      | none => (s, [Effect.scheduleDrainTask])
    else (s, [Effect.scheduleDrainTask])
  else (s, [])

/-- `Application._on_incoming_audio` (lines 341-345): only when the device
state is SPEAKING is the frame written to the playback queue and the
audio-output-ready event set; in any other state the callback returns with
the state untouched.  In SPEAKING the codec is dereferenced without a `None`
check. -/
def on_incoming_audio (s : AppState) (d : OpusFrame) :
    Except PyError AppState :=
  if s.device_state = DeviceState.SPEAKING then
    match s.audio_codec with
    | some c =>
        Except.ok { s with audio_codec := some (write_audio c d),
                           output_ready_event := true }
    | none => Except.error PyError.attributeError
  else Except.ok s

/-! ## The scheduler (src/src/application.py lines 275-292) -/

/-- A task handed to `Application.schedule`.  `throws` records whether
running the closure raises; `_process_scheduled_tasks` wraps each run in its
own try/except, so a raising task is still consumed and logged. -/
structure ScheduledTask where
  id : Nat
  throws : Bool
  deriving DecidableEq, Repr

/-- The scheduler state: `main_tasks` is the pending list guarded by
`self.mutex`; `executed` is the (ghost) log of tasks the main loop has
attempted, in order. -/
structure SchedulerState where
  main_tasks : List ScheduledTask
  executed : List ScheduledTask
  deriving DecidableEq, Repr

/-- `Application.schedule` (lines 288-292): append under the mutex. -/
def schedule (s : SchedulerState) (t : ScheduledTask) : SchedulerState :=
  { s with main_tasks := s.main_tasks ++ [t] }

/-- `Application._process_scheduled_tasks` (lines 275-286): copy the pending
list under the mutex, clear it, then run every copied task in order; each
run is inside try/except, so a raising task is logged and the loop
continues with the next one. -/
def process_scheduled_tasks (s : SchedulerState) : SchedulerState :=
  { main_tasks := [], executed := s.executed ++ s.main_tasks }

/-- One externally visible action on the scheduler: a `schedule(task)` call
from any thread, or a main-loop tick that observed `SCHEDULE_EVENT` and ran
`_process_scheduled_tasks`. -/
inductive LoopOp
  | sched (t : ScheduledTask)
  | tick
  deriving DecidableEq, Repr

/-- Apply one scheduler action. -/
def loopStep (s : SchedulerState) (op : LoopOp) : SchedulerState :=
  match op with
  | LoopOp.sched t => schedule s t
  | LoopOp.tick => process_scheduled_tasks s

/-- Run a sequence of scheduler actions. -/
def runLoop (s : SchedulerState) (ops : List LoopOp) : SchedulerState :=
  ops.foldl loopStep s

/-- The tasks scheduled by a sequence of actions, in enqueue order. -/
def scheduledOf (ops : List LoopOp) : List ScheduledTask :=
  ops.filterMap (fun op =>
    match op with
    | LoopOp.sched t => some t
    | LoopOp.tick => none)

/-! ## WebsocketProtocol (src/src/protocols/websocket_protocol.py) -/

/-- The environment of one `WebsocketProtocol.connect()` attempt:

* `transportOk` — `websockets.connect` returns a socket (a raise lands in
  the outer `except`);
* `sendOk` — `websocket.send` of the client hello succeeds inside
  `send_text` (a failure there is caught by `send_text` itself, which closes
  the channel and reports `"Client closed"`);
* `helloReply` — a server hello with `transport == "websocket"` arrives and
  sets `hello_received` before the 10-second `asyncio.wait_for` expires;
* `errorCbSet` — `self.on_network_error` is set (the Application installs
  all callbacks before any connect).

The callbacks themselves are assumed not to raise, per the callback
contract of spec section 4.2. -/
structure ConnectEnv where
  transportOk : Bool
  sendOk : Bool
  helloReply : Bool
  errorCbSet : Bool
  deriving DecidableEq, Repr

/-- What one `connect()` call returns and does: its boolean result, the
final `self.connected`, the arguments of every `on_network_error`
invocation in order, and whether an exception escaped the call. -/
structure ConnectResult where
  ret : Bool
  connected : Bool
  networkErrors : List String
  raised : Bool
  deriving DecidableEq, Repr

/-- `WebsocketProtocol.connect` (lines 48-108).  A transport failure is
caught by the outer `except` (`"Unable to connect to server"` reported,
`False` returned).  Otherwise the hello is sent through `send_text`, whose
own except branch reports `"Client closed"`; a hello reply can only arrive
if the send succeeded.  If `hello_received` is not set within 10 seconds the
`asyncio.TimeoutError` branch reports `"Response timeout"` and returns
`False`.  No branch re-raises, so `raised` is `false` throughout. -/
def connect (env : ConnectEnv) : ConnectResult :=
  if env.transportOk = false then
    { ret := false, connected := false,
      networkErrors := if env.errorCbSet then ["Unable to connect to server"] else [],
      raised := false }
  else
    let sendErrs : List String :=
      if env.sendOk then [] else if env.errorCbSet then ["Client closed"] else []
    if env.sendOk ∧ env.helloReply then
      { ret := true, connected := true, networkErrors := sendErrs, raised := false }
    else
      { ret := false, connected := false,
        networkErrors :=
          sendErrs ++ (if env.errorCbSet then ["Response timeout"] else []),
        raised := false }

/-- The part of an inbound JSON object that `_message_handler` and
`_handle_server_hello` inspect: the `type` discriminator and, for hello
messages, the `transport` field (`none` models a missing key). -/
structure JsonMsg where
  msgType : String
  transport : Option String
  deriving DecidableEq, Repr

/-- One message delivered by the websocket.  A textual message carries the
outcome of `json.loads`: `none` models a string that is not valid JSON
(`json.JSONDecodeError`), `some j` the parsed object. -/
inductive WsMessage
  | text (parsed : Option JsonMsg)
  | binary (data : OpusFrame)
  deriving DecidableEq, Repr

/-- The externally visible actions of the protocol message loop. -/
inductive ProtoEffect
  | helloEventSet
  | audioChannelOpenedCb
  | incomingJsonCb (j : JsonMsg)
  | incomingAudioCb (d : OpusFrame)
  deriving DecidableEq, Repr

/-- `WebsocketProtocol._handle_server_hello` (lines 179-201): a hello whose
`transport` is not `"websocket"` is logged and ignored; otherwise
`hello_received` is set and `on_audio_channel_opened` invoked. -/
def handle_server_hello (j : JsonMsg) : List ProtoEffect :=
  if j.transport = some "websocket" then
    [ProtoEffect.helloEventSet, ProtoEffect.audioChannelOpenedCb]
  else []

/-- The per-message body of `WebsocketProtocol._message_handler`
(lines 113-127).  A textual message that fails `json.loads` is caught by the
`json.JSONDecodeError` handler, logged and dropped; a parsed `hello` goes to
`_handle_server_hello`; every other parsed object goes to
`on_incoming_json`; binary payloads go to `on_incoming_audio`.  The
callbacks are assumed installed (the Application sets all of them before
connecting). -/
def message_handler_step (m : WsMessage) : List ProtoEffect :=
  match m with
  | WsMessage.text none => []
  | WsMessage.text (some j) =>
      if j.msgType = "hello" then handle_server_hello j
      else [ProtoEffect.incomingJsonCb j]
  | WsMessage.binary d => [ProtoEffect.incomingAudioCb d]

/-! ## Sample states used by witnesses -/

/-- A concrete codec state with the capacity the code computes for 60 ms
frames. -/
def sampleCodec : AudioCodecState :=
  { maxsize := 166, audio_decode_queue := [{ id := 7, decodeOk := true }],
    is_input_paused := false }

/-- A concrete application state in the middle of TTS playback. -/
def sampleSpeaking : AppState :=
  { device_state := DeviceState.SPEAKING, keep_listening := false,
    aborted := false, is_tts_playing := true,
    audio_codec := some sampleCodec,
    wake_word_detector := some { paused := false, running := true },
    on_state_changed_callbacks := [0], protocol_channel_opened := true,
    output_ready_event := false }

/-- A concrete idle application state. -/
def sampleIdle : AppState :=
  { device_state := DeviceState.IDLE, keep_listening := false,
    aborted := false, is_tts_playing := false,
    audio_codec := some sampleCodec,
    wake_word_detector := some { paused := true, running := true },
    on_state_changed_callbacks := [0], protocol_channel_opened := false,
    output_ready_event := false }

/-! ## Helper lemmas -/

lemma write_audio_maxsize (c : AudioCodecState) (d : OpusFrame) :
    (write_audio c d).maxsize = c.maxsize := by
  unfold write_audio
  split <;> rfl

lemma write_audio_length_le (c : AudioCodecState) (d : OpusFrame)
    (h1 : 0 < c.maxsize) (h2 : c.audio_decode_queue.length ≤ c.maxsize) :
    (write_audio c d).audio_decode_queue.length ≤ c.maxsize := by
  unfold write_audio
  split
  · next hfull =>
      simp only [List.length_append, List.length_drop, List.length_cons,
        List.length_nil]
      omega
  · next hfree =>
      simp only [List.length_append, List.length_cons, List.length_nil]
      rw [not_and_or] at hfree
      omega

lemma write_audio_foldl_length_le (frames : List OpusFrame)
    (c : AudioCodecState) (h1 : 0 < c.maxsize)
    (h2 : c.audio_decode_queue.length ≤ c.maxsize) :
    (frames.foldl write_audio c).audio_decode_queue.length ≤ c.maxsize := by
  induction frames generalizing c with
  | nil => exact h2
  | cons f rest ih =>
      have hm := write_audio_maxsize c f
      have := ih (write_audio c f) (hm ▸ h1)
        (hm ▸ write_audio_length_le c f h1 h2)
      calc (((f :: rest).foldl write_audio c).audio_decode_queue).length
          = ((rest.foldl write_audio (write_audio c f)).audio_decode_queue).length := rfl
        _ ≤ (write_audio c f).maxsize := this
        _ = c.maxsize := hm

/-! ## C1 — playback queue capacity and drop-oldest policy -/

/-- C1 counterexample.  The claim states the capacity is
`⌈10000 / frame_duration_ms⌉`.  The code computes
`int(10 * 1000 / FRAME_DURATION)`, which truncates: at the 60 ms frame
duration the spec itself uses as the fixed frame duration, the code yields
166 while the ceiling is 167 (written here as `(10000 + 60 - 1) / 60` in
`Nat` arithmetic). -/
theorem capacity_floor_not_ceiling :
    maxQueueSize 60 = 166 ∧ (10000 + 60 - 1) / 60 = 167 ∧
    maxQueueSize 60 ≠ (10000 + 60 - 1) / 60 := by
  decide

/-- C1 (amended: capacity is `⌊10000 / frame_duration_ms⌋`, the rest of the
claim unchanged).  The playback queue is a bounded FIFO: for every sequence
of `write_audio` calls the queue length never exceeds the configured
capacity; a push onto a full queue evicts exactly the oldest entry and
retains the new entry; and 5 pushes into a capacity-3 queue leave exactly
the last 3 pushed frames, in order. -/
theorem playback_queue_bounded_drop_oldest :
    (∀ (c : AudioCodecState) (frames : List OpusFrame),
       0 < c.maxsize → c.audio_decode_queue.length ≤ c.maxsize →
       (frames.foldl write_audio c).audio_decode_queue.length ≤ c.maxsize) ∧
    (∀ (c : AudioCodecState) (d : OpusFrame),
       0 < c.maxsize → c.audio_decode_queue.length = c.maxsize →
       (write_audio c d).audio_decode_queue =
         c.audio_decode_queue.drop 1 ++ [d]) ∧
    (∀ f1 f2 f3 f4 f5 : OpusFrame,
       ([f1, f2, f3, f4, f5].foldl write_audio
           { maxsize := 3, audio_decode_queue := [],
             is_input_paused := false }).audio_decode_queue = [f3, f4, f5]) := by
  refine ⟨fun c frames h1 h2 => write_audio_foldl_length_le frames c h1 h2,
          fun c d h1 h2 => ?_, fun f1 f2 f3 f4 f5 => ?_⟩
  · unfold write_audio
    rw [if_pos ⟨h1, le_of_eq h2.symm⟩]
  · simp [write_audio, List.foldl]

/-- C1 witness: the amended theorem evaluated on a capacity-3 queue and on a
full queue. -/
theorem playback_queue_bounded_witness :
    (([⟨1, true⟩, ⟨2, true⟩, ⟨3, true⟩, ⟨4, true⟩] : List OpusFrame).foldl
        write_audio
        { maxsize := 3, audio_decode_queue := [],
          is_input_paused := false }).audio_decode_queue.length ≤ 3 ∧
    (write_audio
        { maxsize := 2, audio_decode_queue := [⟨1, true⟩, ⟨2, true⟩],
          is_input_paused := false } ⟨3, true⟩).audio_decode_queue =
      ([⟨1, true⟩, ⟨2, true⟩] : List OpusFrame).drop 1 ++ [⟨3, true⟩] :=
  ⟨playback_queue_bounded_drop_oldest.1
      { maxsize := 3, audio_decode_queue := [], is_input_paused := false }
      [⟨1, true⟩, ⟨2, true⟩, ⟨3, true⟩, ⟨4, true⟩] (by decide) (by decide),
   playback_queue_bounded_drop_oldest.2.1
      { maxsize := 2, audio_decode_queue := [⟨1, true⟩, ⟨2, true⟩],
        is_input_paused := false } ⟨3, true⟩ (by decide) (by decide)⟩

/-! ## C2 — scheduled tasks run exactly once, in FIFO order -/

lemma runLoop_exec_append (ops : List LoopOp) (s : SchedulerState) :
    (runLoop s ops).executed ++ (runLoop s ops).main_tasks =
      s.executed ++ s.main_tasks ++ scheduledOf ops := by
  induction ops generalizing s with
  | nil => simp [runLoop, scheduledOf]
  | cons op rest ih =>
      cases op with
      | sched t =>
          have h := ih (schedule s t)
          simp only [runLoop, List.foldl_cons, loopStep] at *
          simp [schedule, scheduledOf] at h ⊢
          simpa using h
      | tick =>
          have h := ih (process_scheduled_tasks s)
          simp only [runLoop, List.foldl_cons, loopStep] at *
          simp [process_scheduled_tasks, scheduledOf] at h ⊢
          simpa using h

/-- C2.  For every sequence of `schedule(task)` calls interleaved with
main-loop ticks, a final tick leaves every scheduled task executed exactly
once, in FIFO enqueue order, with the pending list empty.  Tasks whose
`throws` flag is set appear in the executed log like any other task — each
task runs inside its own try/except, so a raising task never prevents a
later task from running. -/
theorem scheduled_tasks_fifo_exactly_once (ops : List LoopOp) :
    (runLoop { main_tasks := [], executed := [] } (ops ++ [LoopOp.tick])).executed =
      scheduledOf ops ∧
    (runLoop { main_tasks := [], executed := [] } (ops ++ [LoopOp.tick])).main_tasks =
      [] := by
  have hsplit :
      runLoop { main_tasks := [], executed := [] } (ops ++ [LoopOp.tick]) =
        process_scheduled_tasks
          (runLoop { main_tasks := [], executed := [] } ops) := by
    simp [runLoop, loopStep]
  have h := runLoop_exec_append ops { main_tasks := [], executed := [] }
  simp only [List.nil_append] at h
  refine ⟨?_, ?_⟩
  · rw [hsplit]
    simp only [process_scheduled_tasks]
    simpa using h
  · rw [hsplit]
    rfl

/-! ## C3, C4 — abort_speaking -/

/-- Recognizes the `send_abort_speaking` effect. -/
def isSendAbort (e : Effect) : Bool :=
  match e with
  | Effect.sendAbort _ => true
  | _ => false

/-- Recognizes the scheduled transition to IDLE. -/
def isScheduleIdle (e : Effect) : Bool :=
  match e with
  | Effect.scheduleSetState DeviceState.IDLE => true
  | _ => false

lemma abort_speaking_noop (s : AppState) (r : AbortReason)
    (h : s.aborted = true) : abort_speaking s r = (s, [], []) := by
  simp [abort_speaking, h]

lemma abort_speaking_sets_aborted (s : AppState) (r : AbortReason)
    (h : s.aborted = false) : (abort_speaking s r).1.aborted = true := by
  simp [abort_speaking, h]

lemma pauseIfRunning_effects (d : Option WakeWordState) :
    (pauseIfRunning d).2 = [] ∨ (pauseIfRunning d).2 = [Effect.pauseWakeWord] := by
  cases d with
  | none => left; rfl
  | some w =>
      by_cases hw : w.running = true
      · right; simp [pauseIfRunning, hw]
      · left; simp [pauseIfRunning, hw]

lemma abort_speaking_filtered (s : AppState) (r : AbortReason)
    (h : s.aborted = false) :
    ((abort_speaking s r).2.1.filter isSendAbort = [] ∧
     (abort_speaking s r).2.1.filter isScheduleIdle = []) ∧
    ((abort_speaking s r).2.2.filter isSendAbort = [Effect.sendAbort r] ∧
     (abort_speaking s r).2.2.filter isScheduleIdle =
       [Effect.scheduleSetState DeviceState.IDLE]) := by
  constructor
  · cases r with
    | NONE => simp [abort_speaking, h, isSendAbort, isScheduleIdle]
    | WAKE_WORD_DETECTED =>
        rcases pauseIfRunning_effects s.wake_word_detector with hp | hp <;>
          simp [abort_speaking, h, hp, isSendAbort, isScheduleIdle]
  · constructor <;>
      · simp only [abort_speaking, h, Bool.false_eq_true, if_false,
          List.filter_append]
        split <;> simp [isSendAbort, isScheduleIdle]

/-- C3.  `abort_speaking` is idempotent: starting from a not-yet-aborted
state, a second call with any reason is a complete no-op (same state, no
sync or deferred effects), and across both calls exactly one
`send_abort_speaking` effect and exactly one scheduled transition to IDLE
are produced. -/
theorem abort_speaking_idempotent (s : AppState) (r1 r2 : AbortReason)
    (h : s.aborted = false) :
    abort_speaking (abort_speaking s r1).1 r2 = ((abort_speaking s r1).1, [], []) ∧
    (((abort_speaking s r1).2.1 ++ (abort_speaking s r1).2.2).filter
        isSendAbort).length = 1 ∧
    (((abort_speaking s r1).2.1 ++ (abort_speaking s r1).2.2).filter
        isScheduleIdle).length = 1 := by
  have hf := abort_speaking_filtered s r1 h
  refine ⟨abort_speaking_noop _ r2 (abort_speaking_sets_aborted s r1 h), ?_, ?_⟩ <;>
    simp [List.filter_append, hf.1.1, hf.1.2, hf.2.1, hf.2.2]

/-- C3 witness: both abort calls evaluated on a concrete speaking state. -/
theorem abort_speaking_idempotent_witness :
    abort_speaking (abort_speaking sampleSpeaking AbortReason.WAKE_WORD_DETECTED).1
        AbortReason.NONE =
      ((abort_speaking sampleSpeaking AbortReason.WAKE_WORD_DETECTED).1, [], []) ∧
    (((abort_speaking sampleSpeaking AbortReason.WAKE_WORD_DETECTED).2.1 ++
        (abort_speaking sampleSpeaking AbortReason.WAKE_WORD_DETECTED).2.2).filter
        isSendAbort).length = 1 ∧
    (((abort_speaking sampleSpeaking AbortReason.WAKE_WORD_DETECTED).2.1 ++
        (abort_speaking sampleSpeaking AbortReason.WAKE_WORD_DETECTED).2.2).filter
        isScheduleIdle).length = 1 :=
  abort_speaking_idempotent sampleSpeaking AbortReason.WAKE_WORD_DETECTED
    AbortReason.NONE rfl

/-- C4.  The first `abort_speaking` call empties the playback queue and
marks TTS playing false in its synchronous part: the returned state (reached
before the `process_abort` thread starts) carries the cleared queue and the
false flag, while the abort-message send sits in the deferred effect list
that only the thread performs. -/
theorem abort_clears_queue_synchronously (s : AppState) (r : AbortReason)
    (c : AudioCodecState) (h : s.aborted = false)
    (hc : s.audio_codec = some c) :
    (abort_speaking s r).1.audio_codec = some (clear_audio_queue c) ∧
    (clear_audio_queue c).audio_decode_queue = [] ∧
    (abort_speaking s r).1.is_tts_playing = false ∧
    Effect.sendAbort r ∈ (abort_speaking s r).2.2 := by
  refine ⟨?_, rfl, ?_, ?_⟩ <;> simp [abort_speaking, h, hc, clear_audio_queue]

/-- C4 witness: the synchronous post-state of a concrete abort call. -/
theorem abort_clears_queue_synchronously_witness :
    (abort_speaking sampleSpeaking AbortReason.WAKE_WORD_DETECTED).1.audio_codec =
      some (clear_audio_queue sampleCodec) ∧
    (clear_audio_queue sampleCodec).audio_decode_queue = [] ∧
    (abort_speaking sampleSpeaking AbortReason.WAKE_WORD_DETECTED).1.is_tts_playing =
      false ∧
    Effect.sendAbort AbortReason.WAKE_WORD_DETECTED ∈
      (abort_speaking sampleSpeaking AbortReason.WAKE_WORD_DETECTED).2.2 :=
  abort_clears_queue_synchronously sampleSpeaking AbortReason.WAKE_WORD_DETECTED
    sampleCodec rfl rfl

/-! ## C5 — connect() handshake timeout -/

/-- C5 counterexample.  In the execution where the transport connects but
the hello send itself fails and no server hello ever arrives, `connect()`
still returns false and raises nothing, but the network-error callback is
invoked twice: once by `send_text` (`"Client closed"`) and once by the
timeout branch (`"Response timeout"`) — not exactly once as the claim
states. -/
theorem connect_send_failure_double_error :
    connect { transportOk := true, sendOk := false, helloReply := false,
              errorCbSet := true } =
      { ret := false, connected := false,
        networkErrors := ["Client closed", "Response timeout"],
        raised := false } ∧
    (connect { transportOk := true, sendOk := false, helloReply := false,
               errorCbSet := true }).networkErrors.length ≠ 1 := by
  refine ⟨rfl, ?_⟩
  decide

/-- C5 (amended: the callback fires exactly once except when the hello send
itself fails on an established transport, where the send-failure report and
the timeout report fire once each).  Whenever no server hello arrives within
the 10-second timeout, `connect()` returns false, marks the channel not
connected, raises nothing past its boundary, and invokes the network-error
callback at least once with a descriptive reason. -/
theorem connect_timeout_behavior (env : ConnectEnv)
    (hcb : env.errorCbSet = true) (hh : env.helloReply = false) :
    (connect env).ret = false ∧ (connect env).connected = false ∧
    (connect env).raised = false ∧ (connect env).networkErrors ≠ [] ∧
    (env.sendOk = true ∨ env.transportOk = false →
      (connect env).networkErrors.length = 1) := by
  rcases env with ⟨t, sd, hr, cb⟩
  simp only at hcb hh
  subst hcb hh
  cases t <;> cases sd <;> simp [connect]

/-- C5 witness: the amended theorem on the silent-server execution. -/
theorem connect_timeout_behavior_witness :
    (connect { transportOk := true, sendOk := true, helloReply := false,
               errorCbSet := true }).ret = false ∧
    (connect { transportOk := true, sendOk := true, helloReply := false,
               errorCbSet := true }).connected = false ∧
    (connect { transportOk := true, sendOk := true, helloReply := false,
               errorCbSet := true }).raised = false ∧
    (connect { transportOk := true, sendOk := true, helloReply := false,
               errorCbSet := true }).networkErrors ≠ [] ∧
    (({ transportOk := true, sendOk := true, helloReply := false,
        errorCbSet := true } : ConnectEnv).sendOk = true ∨
     ({ transportOk := true, sendOk := true, helloReply := false,
        errorCbSet := true } : ConnectEnv).transportOk = false →
      (connect { transportOk := true, sendOk := true, helloReply := false,
                 errorCbSet := true }).networkErrors.length = 1) :=
  connect_timeout_behavior
    { transportOk := true, sendOk := true, helloReply := false,
      errorCbSet := true } rfl rfl

/-! ## C6 — where the forced input-stream reinitialization lives -/

/-- C6 counterexample.  `_handle_tts_start` schedules the SPEAKING
transition without performing any input-stream reinitialization: on a
concrete idle state its effect list is exactly the scheduled SPEAKING
transition, and contains no `reinitInputStream` — so no reinitialization
happens "immediately before the transition to SPEAKING", and there is no
reinit-failure fallback on this path at all. -/
theorem tts_start_schedules_speaking_without_reinit :
    handle_tts_start sampleIdle =
      Except.ok
        ({ sampleIdle with aborted := false, is_tts_playing := true,
                           audio_codec := some (clear_audio_queue sampleCodec) },
         [Effect.scheduleSetState DeviceState.SPEAKING]) ∧
    Effect.reinitInputStream ∉ [Effect.scheduleSetState DeviceState.SPEAKING] := by
  refine ⟨rfl, ?_⟩
  decide

lemma resumeIfPaused_effects (d : Option WakeWordState) :
    (resumeIfPaused d).2 = [] ∨ (resumeIfPaused d).2 = [Effect.resumeWakeWord] := by
  cases d with
  | none => left; rfl
  | some w =>
      by_cases hw : w.paused = true
      · right; simp [resumeIfPaused, hw]
      · left; simp [resumeIfPaused, hw]

lemma resumeIfPaused_not_paused (d : Option WakeWordState) (w : WakeWordState)
    (h : (resumeIfPaused d).1 = some w) : w.paused = false := by
  cases d with
  | none => simp [resumeIfPaused] at h
  | some w0 =>
      by_cases hp : w0.paused = true
      · simp [resumeIfPaused, hp] at h
        rw [← h]
      · simp [resumeIfPaused, hp] at h
        rw [← h]
        simpa using hp

/-- C6 (amended: the forced input-stream reinitialization happens in the
`tts/stop` handler, on Linux, immediately before the drain-then-transition
task is scheduled — not in the `tts/start` handler; if the reinitialization
call raises, the drain is abandoned, a transition to IDLE is scheduled, and
wake-word detection is resumed).  Formally: `handle_tts_start` never emits a
reinitialization; `handle_tts_stop` in SPEAKING on Linux emits the
reinitialization and then the drain task when the call returns; and when the
call raises it schedules IDLE, schedules no drain, and leaves the wake-word
detector unpaused. -/
theorem forced_reinit_located_in_tts_stop :
    (∀ (s s1 : AppState) (effs : List Effect),
       handle_tts_start s = Except.ok (s1, effs) →
       Effect.reinitInputStream ∉ effs) ∧
    (∀ (s : AppState) (c : AudioCodecState) (success : Bool),
       s.device_state = DeviceState.SPEAKING → s.audio_codec = some c →
       handle_tts_stop s true (ReinitOutcome.ok success) =
         (s, [Effect.reinitInputStream, Effect.scheduleDrainTask])) ∧
    (∀ (s : AppState) (c : AudioCodecState),
       s.device_state = DeviceState.SPEAKING → s.audio_codec = some c →
       Effect.scheduleSetState DeviceState.IDLE ∈
         (handle_tts_stop s true ReinitOutcome.raised).2 ∧
       Effect.reinitInputStream ∈
         (handle_tts_stop s true ReinitOutcome.raised).2 ∧
       Effect.scheduleDrainTask ∉
         (handle_tts_stop s true ReinitOutcome.raised).2 ∧
       (∀ w, (handle_tts_stop s true ReinitOutcome.raised).1.wake_word_detector =
              some w → w.paused = false)) := by
  refine ⟨fun s s1 effs h => ?_, fun s c success hs hc => ?_,
          fun s c hs hc => ?_⟩
  · cases hco : s.audio_codec with
    | none => simp [handle_tts_start, hco] at h
    | some ac =>
        simp only [handle_tts_start, hco] at h
        split at h <;>
          · simp only [Except.ok.injEq, Prod.mk.injEq] at h
            rw [← h.2]
            decide
  · simp [handle_tts_stop, hs, hc]
  · refine ⟨?_, ?_, ?_, fun w hw => ?_⟩
    · simp [handle_tts_stop, hs, hc]
    · simp [handle_tts_stop, hs, hc]
    · rcases resumeIfPaused_effects s.wake_word_detector with hp | hp <;>
        simp [handle_tts_stop, hs, hc, hp]
    · simp only [handle_tts_stop, hs, hc] at hw
      simp at hw
      exact resumeIfPaused_not_paused s.wake_word_detector w hw

/-- C6 witness: the amended theorem on concrete states. -/
theorem forced_reinit_located_in_tts_stop_witness :
    (Effect.reinitInputStream ∉
      ([Effect.scheduleSetState DeviceState.SPEAKING] : List Effect)) ∧
    handle_tts_stop sampleSpeaking true (ReinitOutcome.ok false) =
      (sampleSpeaking, [Effect.reinitInputStream, Effect.scheduleDrainTask]) ∧
    Effect.scheduleSetState DeviceState.IDLE ∈
      (handle_tts_stop sampleSpeaking true ReinitOutcome.raised).2 :=
  ⟨forced_reinit_located_in_tts_stop.1 sampleIdle
      { sampleIdle with aborted := false, is_tts_playing := true,
                        audio_codec := some (clear_audio_queue sampleCodec) }
      [Effect.scheduleSetState DeviceState.SPEAKING] rfl,
   forced_reinit_located_in_tts_stop.2.1 sampleSpeaking sampleCodec false rfl rfl,
   (forced_reinit_located_in_tts_stop.2.2 sampleSpeaking sampleCodec rfl rfl).1⟩

/-! ## C7 — same-state set_device_state is a no-op -/

/-- C7.  Setting the device state to its current value returns the state
unchanged with an empty effect list: no display update, no wake-word or
audio-input side effect, and no state-change callback is invoked. -/
theorem set_device_state_same_state_noop (s : AppState) (st : DeviceState)
    (h : s.device_state = st) : set_device_state s st = (s, []) := by
  simp [set_device_state, h]

/-- C7 witness: a SPEAKING state (with a registered callback) set to
SPEAKING again. -/
theorem set_device_state_same_state_noop_witness :
    set_device_state sampleSpeaking DeviceState.SPEAKING = (sampleSpeaking, []) :=
  set_device_state_same_state_noop sampleSpeaking DeviceState.SPEAKING rfl

/-! ## C8 — play_audio batch size and decode-failure isolation -/

lemma play_audio_go_spec (q : List OpusFrame) (n : Nat) :
    play_audio_go true q n =
      (q.drop n,
       ((q.take n).filter (fun f => f.decodeOk)).map (fun f => f.id),
       ((q.take n).filter (fun f => !f.decodeOk)).map (fun f => f.id)) := by
  induction n generalizing q with
  | zero => simp [play_audio_go]
  | succ n ih =>
      cases q with
      | nil => simp [play_audio_go]
      | cons f rest =>
          by_cases hf : f.decodeOk = true <;>
            simp [play_audio_go, ih, hf]

/-- C8.  With an active output stream, one `play_audio` call pops exactly
`min 5 (queue length)` frames — never more than 5, leaving `queue.drop 5` —
and of the popped frames, those whose decode succeeds are written out while
each frame whose decode fails is discarded alone, without stopping the rest
of the batch.  The function is total: every decode and write failure is
caught inside the loop, so no exception propagates. -/
theorem play_audio_batch_and_decode_failure (c : AudioCodecState) :
    play_audio true c =
      ({ c with audio_decode_queue := c.audio_decode_queue.drop 5 },
       ((c.audio_decode_queue.take 5).filter (fun f => f.decodeOk)).map
         (fun f => f.id),
       ((c.audio_decode_queue.take 5).filter (fun f => !f.decodeOk)).map
         (fun f => f.id)) := by
  simp [play_audio, play_audio_go_spec]

/-! ## C9 — malformed inbound JSON is dropped -/

/-- C9.  A textual message that fails JSON parsing produces no protocol
effect at all: no callback fires, and — for any interpretation of protocol
effects over application states — the application state is unchanged.  The
`json.JSONDecodeError` handler logs and drops the message, so nothing
escapes the message handler. -/
theorem malformed_json_dropped :
    message_handler_step (WsMessage.text none) = [] ∧
    ∀ (applyE : AppState → ProtoEffect → AppState) (s : AppState),
      (message_handler_step (WsMessage.text none)).foldl applyE s = s :=
  ⟨rfl, fun _ _ => rfl⟩

/-! ## C10 — inbound audio is gated on the SPEAKING state -/

/-- C10.  An inbound binary frame is enqueued (with the drop-oldest
`write_audio` policy) and the output-ready event set only when the device
state is SPEAKING; in any other state the callback returns the state
completely unchanged — playback queue and output-ready event included. -/
theorem incoming_audio_gated_by_speaking (s : AppState) (d : OpusFrame) :
    (s.device_state ≠ DeviceState.SPEAKING →
       on_incoming_audio s d = Except.ok s) ∧
    (∀ c, s.device_state = DeviceState.SPEAKING → s.audio_codec = some c →
       on_incoming_audio s d =
         Except.ok { s with audio_codec := some (write_audio c d),
                            output_ready_event := true }) := by
  constructor
  · intro h
    simp [on_incoming_audio, h]
  · intro c hs hc
    simp [on_incoming_audio, hs, hc]

/-- C10 witness: a frame delivered in IDLE is discarded; the same frame
delivered in SPEAKING is enqueued and sets the output-ready event. -/
theorem incoming_audio_gated_by_speaking_witness :
    on_incoming_audio sampleIdle ⟨9, true⟩ = Except.ok sampleIdle ∧
    on_incoming_audio sampleSpeaking ⟨9, true⟩ =
      Except.ok { sampleSpeaking with
                    audio_codec := some (write_audio sampleCodec ⟨9, true⟩),
                    output_ready_event := true } :=
  ⟨(incoming_audio_gated_by_speaking sampleIdle ⟨9, true⟩).1 (by decide),
   (incoming_audio_gated_by_speaking sampleSpeaking ⟨9, true⟩).2 sampleCodec
     rfl rfl⟩

end XiaoZhi
